import Mathlib

/-!
Shallow embedding of the camara-uart chunked-transfer protocol.

The serial channel is modelled as a list of bytes (`List Nat`): the bytes
that arrive, in order, during one phase of the exchange.  A blocking
`serial.read(k)` returns up to `k` of the bytes still pending; a read that
can return nothing models the corresponding timeout in the source.  The
receiver's `in_waiting` poll depends on arrival timing, so it is abstracted
by a schedule `sched : Nat -> Bool`: on loop iteration `i` the condition
`in_waiting >= 4` holds iff `sched i` is true and at least 4 bytes of the
phase's stream are still pending (it can never hold with fewer than 4
pending bytes).  Line-oriented reads (`readline().strip()`) are modelled as
a list of already-stripped lines.
-/

namespace CamUart

/-- Start marker, 10 times 0xAA (uart_client_v5.py, transport_api_ack.py). -/
def START10 : List Nat := List.replicate 10 0xAA

/-- End marker, 10 times 0xBB (transport_api_ack.py). -/
def END10 : List Nat := List.replicate 10 0xBB

/-- Retry marker, 4 times 0xCC (transport_api_ack.py `_send_missing_bytes`). -/
def RETRY4 : List Nat := List.replicate 4 0xCC

/-- Trailing text written after the end marker (transport_api_ack.py `END_TEXT`). -/
def ENDTEXT : List Nat := "<FIN_TRANSMISION>\r\n".toList.map Char.toNat

/-- Big-endian 32-bit size header, `struct.pack(">I", size)`. -/
def be32enc (n : Nat) : List Nat :=
  [n / 16777216 % 256, n / 65536 % 256, n / 256 % 256, n % 256]

/-- Big-endian decode of the 4 header bytes, `struct.unpack(">I", size_data)[0]`. -/
def be32 (l : List Nat) : Nat :=
  ((l.getD 0 0 * 256 + l.getD 1 0) * 256 + l.getD 2 0) * 256 + l.getD 3 0

/-- The status line written by `UARTPhotoClient.send_ack_status`
(src/client/uart_client_v5.py lines 142-163).  The constant `ACK_MISSING`
already ends in a colon and the format string `f"{ACK_MISSING}:{received_bytes}"`
adds a second one, so the missing-report line carries a double colon. -/
def sendAckStatus (received expected : Nat) : String :=
  if received = expected then "ACK_OK" ++ "\r\n"
  else "ACK_MISSING:" ++ ":" ++ Nat.repr received ++ "\r\n"

/-- Modelled from the spec: the wire rule `ACK_MISSING:<decimal>` of the ACK
line protocol (spec section 6), a single colon followed by the decimal
received count.  Used only to compare the client's actual line against the
specified format. -/
def specAckMissingLine (n : Nat) : String :=
  "ACK_MISSING:" ++ Nat.repr n ++ "\r\n"

/-- Outcome of the start-marker scan. -/
inductive StartScan
  | found
  | retry
  | timedOut
deriving DecidableEq

/-- Sliding-window scan of `UARTPhotoClient._wait_start_marker`
(src/client/uart_client_v5.py lines 165-190): read one byte at a time,
keep the last 10 bytes, succeed when the window equals the start marker;
additionally return `retry` as soon as the last 4 bytes read equal the
retry marker.  Stream exhaustion models the deadline expiring. -/
def waitStartGo : List Nat → List Nat → StartScan × List Nat
  | _, [] => (.timedOut, [])
  | window, b :: rest =>
    let w1 := window ++ [b]
    let w2 := if 10 < w1.length then w1.drop (w1.length - 10) else w1
    if w2 = START10 then (.found, rest)
    else if 4 ≤ w2.length ∧ w2.drop (w2.length - 4) = RETRY4 then (.retry, rest)
    else waitStartGo w2 rest

/-- Loop body of `UARTPhotoClient._read_exact`
(src/client/uart_client_v5.py lines 192-235).  State: loop counter `i`
(consulted by the `in_waiting` schedule), `remaining` (a Python int, which
the 4-byte probe can drive negative), the pending stream, and the
accumulated `received_data`.  Returns (success, buffer, unread stream).
An empty chunk read with bytes still remaining models the inactivity
timeout (the stream holds every byte that will ever arrive).  `fuel`
strictly exceeds the number of loop iterations (every recursive call
consumes at least one stream byte), so the fuel-exhaustion arm is
unreachable whenever `stream.length < fuel`. -/
def readExactGo (sched : Nat → Bool) :
    Nat → Nat → Int → List Nat → List Nat → Bool × List Nat × List Nat
  | 0, _, _, stream, acc => (false, acc, stream)
  | fuel + 1, i, remaining, stream, acc =>
    if remaining ≤ 0 then (true, acc, stream)
    else if sched i = true ∧ 4 ≤ stream.length then
      -- `in_waiting >= 4`: read 4 bytes and test them against the retry marker
      let pm := stream.take 4
      let s1 := stream.drop 4
      if pm = RETRY4 then readExactGo sched fuel (i + 1) remaining s1 acc
      else
        let rem1 := remaining - 4
        let acc1 := acc ++ pm
        let toRead : Int := min 4096 rem1
        if toRead ≤ 0 then (true, acc1, s1)
        else
          let k := min toRead.toNat s1.length
          if k = 0 then (false, acc1, s1)
          else readExactGo sched fuel (i + 1) (rem1 - k) (s1.drop k) (acc1 ++ s1.take k)
    else
      let toRead : Int := min 4096 remaining
      let k := min toRead.toNat stream.length
      if k = 0 then (false, acc, stream)
      else readExactGo sched fuel (i + 1) (remaining - k) (stream.drop k) (acc ++ stream.take k)

/-- Entry point of `_read_exact nbytes`: fresh counters, fuel ample. -/
def readExact (sched : Nat → Bool) (nbytes : Int) (stream : List Nat) :
    Bool × List Nat × List Nat :=
  readExactGo sched (stream.length + 1) 0 nbytes stream []

/-- JPEG header/trailer check of `receive_image` step 6
(src/client/uart_client_v5.py lines 310-317). -/
def jpegValid (b : List Nat) : Bool :=
  (decide (2 ≤ b.length) && (b.getD 0 0 == 0xFF) && (b.getD 1 0 == 0xD8)) &&
  (decide (2 ≤ b.length) && (b.getD (b.length - 2) 0 == 0xFF) && (b.getD (b.length - 1) 0 == 0xD9))

/-- Observable outcome of one `receive_image` session: the returned success
flag, the final `received_data` buffer, the status lines sent through
`send_ack_status` (the `ACK_READY` pre-phase line is not a status line),
whether the image file was written, and the decoded size header. -/
structure RecvOut where
  success : Bool
  buffer : List Nat
  statusLines : List String
  saved : Bool
  sizeHeader : Option Nat
deriving DecidableEq

/-- `UARTPhotoClient.receive_image` (src/client/uart_client_v5.py lines
237-351) with `enable_ack = True`: wait for the start marker (a retry
marker outcome also proceeds), read the 4-byte size header, read exactly
that many payload bytes, drain the trailer, check JPEG signatures, send
one status line against `expected_size`, and only then write the file.
Failure paths return before the file write. -/
def receiveImage (expected : Nat) (stream : List Nat) (sched : Nat → Bool) : RecvOut :=
  match waitStartGo [] stream with
  | (.timedOut, _) =>
    { success := false, buffer := [], statusLines := [], saved := false, sizeHeader := none }
  | (_, rest) =>
    if 4 ≤ rest.length then
      let ts := be32 (rest.take 4)
      let s1 := rest.drop 4
      match readExact sched (ts : Int) s1 with
      | (false, buf, _) =>
        { success := false, buffer := buf,
          statusLines := [sendAckStatus buf.length expected], saved := false,
          sizeHeader := some ts }
      | (true, buf, _) =>
        { success := decide (buf.length = expected) && jpegValid buf, buffer := buf,
          statusLines := [sendAckStatus buf.length expected], saved := true,
          sizeHeader := some ts }
    else
      { success := false, buffer := [],
        statusLines := [sendAckStatus 0 expected], saved := false, sizeHeader := none }

/-- Chunk loop of `send_bytes_with_ack` (src/server/APIs/transport_api_ack.py
lines 169-188): write 512-byte chunks of the pending data; after each chunk
the progress log evaluates `sent % (size // 10)`, which raises
ZeroDivisionError when `size // 10 == 0`.  `.ok body` is the bytes written
by a completed loop, `.error body` the bytes written before the exception.
`fuel` strictly exceeds the chunk count, so its zero arm is unreachable
whenever `pending.length < fuel`. -/
def sendChunksGo (size : Nat) : Nat → List Nat → Except (List Nat) (List Nat)
  | _, [] => .ok []
  | 0, _ :: _ => .error []
  | fuel + 1, b :: t =>
    let chunk := (b :: t).take 512
    if size / 10 = 0 then .error chunk
    else
      match sendChunksGo size fuel ((b :: t).drop 512) with
      | .ok r => .ok (chunk ++ r)
      | .error r => .error (chunk ++ r)

/-- Bytes written on the wire by the initial-send phase of
`send_bytes_with_ack` (lines 158-197): start marker, big-endian size,
chunked payload, then end marker and trailer text -- the latter two only
when the chunk loop did not raise (the ZeroDivisionError propagates to the
outer handler, which returns False before the ACK wait).  Second component:
whether the phase completed. -/
def initialSend (data : List Nat) : List Nat × Bool :=
  match sendChunksGo data.length (data.length + 1) data with
  | .ok body => (START10 ++ be32enc data.length ++ body ++ END10 ++ ENDTEXT, true)
  | .error partBody => (START10 ++ be32enc data.length ++ partBody, false)

/-- Python `str.split(":")`: split at every colon, keeping empty fields. -/
def splitColon : List Char → List (List Char)
  | [] => [[]]
  | c :: rest =>
    match splitColon rest with
    | [] => [[c]]
    | h :: t => if c = ':' then [] :: h :: t else (c :: h) :: t

/-- Python `int()` on the unsigned decimal strings this protocol produces:
a non-empty run of digits decodes; anything else (such as the empty field
of a double-colon line) raises ValueError, mapped to `none`. -/
def pyInt (cs : List Char) : Option Nat :=
  if cs ≠ [] ∧ cs.all (fun c => decide (48 ≤ c.toNat ∧ c.toNat ≤ 57))
    then some (cs.foldl (fun a c => a * 10 + (c.toNat - 48)) 0) else none

/-- Whitespace test used by `pyStrip`. -/
def isWs (c : Char) : Bool :=
  c = ' ' || c = '\r' || c = '\n' || c = '\t'

/-- Python `str.strip()` restricted to the whitespace this protocol emits
(space, CR, LF, tab): drop it from both ends of the character list. -/
def pyStrip (cs : List Char) : List Char :=
  ((cs.dropWhile isWs).reverse.dropWhile isWs).reverse

/-- `UartTransport._wait_for_ack` (transport_api_ack.py lines 71-102):
consume stripped lines until one is recognized; `ACK_OK` yields (True, 0);
a line starting with `ACK_MISSING:` yields (False, expected - n) where `n`
is `int(line.split(":")[1])`, or (False, 0) when that raises; unrecognized
lines are skipped; running out of lines models the deadline, (False, 0). -/
def waitForAckGo (expected : Int) : List String → (Bool × Int) × List String
  | [] => ((false, 0), [])
  | l :: rest =>
    if l = "ACK_OK" then ((true, 0), rest)
    else if "ACK_MISSING:".data.isPrefixOf l.data then
      match pyInt ((splitColon l.data).getD 1 []) with
      | some n => ((false, expected - n), rest)
      | none => ((false, 0), rest)
    else waitForAckGo expected rest

/-- Bytes written by `UartTransport._send_missing_bytes` (transport_api_ack.py
lines 104-145): none when the offset is invalid (the function returns False
without writing), otherwise the 4-byte retry marker followed by
`data[start_offset : min(start_offset + missing_count, len(data))]`. -/
def sendMissingWire (data : List Nat) (startOffset missingCount : Nat) : Option (List Nat) :=
  if data.length ≤ startOffset then none
  else some (RETRY4 ++ (data.drop startOffset).take (min missingCount (data.length - startOffset)))

/-- Observable outcome of the verification phase of `send_bytes_with_ack`:
return value, number of `_wait_for_ack` calls, and the retransmission wires
written. -/
structure SendRun where
  ok : Bool
  ackExchanges : Nat
  retransWires : List (List Nat)
deriving DecidableEq

/-- Verification/retransmission loop of `send_bytes_with_ack`
(transport_api_ack.py lines 202-233), `for retry in range(max_retries+1)`:
`left` is the number of loop iterations still allowed after the current one
(`max_retries - retry`).  Each iteration waits for an ACK; success returns
True; an undetermined missing count breaks; at the last allowed iteration
it breaks; otherwise it retransmits the missing suffix and continues. -/
def ackPhaseGo (data : List Nat) (expected : Nat) :
    Nat → List String → Nat → List (List Nat) → SendRun
  | left, lines, exch, wires =>
    match waitForAckGo (expected : Int) lines with
    | ((true, _), _) => { ok := true, ackExchanges := exch + 1, retransWires := wires }
    | ((false, missing), rest) =>
      if missing ≤ 0 then { ok := false, ackExchanges := exch + 1, retransWires := wires }
      else
        match left with
        | 0 => { ok := false, ackExchanges := exch + 1, retransWires := wires }
        | left1 + 1 =>
          match sendMissingWire data (((expected : Int) - missing).toNat) missing.toNat with
          | none => { ok := false, ackExchanges := exch + 1, retransWires := wires }
          | some w => ackPhaseGo data expected left1 rest (exch + 1) (wires ++ [w])

/-- `UartTransport.send_bytes_with_ack` (transport_api_ack.py lines 147-237):
initial send then the ACK verification loop; a ZeroDivisionError in the
chunk loop is caught by the outer handler and the call returns False with
no ACK exchange.  Also returns the bytes written on the wire. -/
def sendBytesWithAck (data : List Nat) (expected maxRetries : Nat) (lines : List String) :
    SendRun × List Nat :=
  match sendChunksGo data.length (data.length + 1) data with
  | .error partBody =>
    ({ ok := false, ackExchanges := 0, retransWires := [] },
      START10 ++ be32enc data.length ++ partBody)
  | .ok body =>
    (ackPhaseGo data expected maxRetries lines 0 [],
      START10 ++ be32enc data.length ++ body ++ END10 ++ ENDTEXT)

/-- Outcome of the chunk loop of `transport_api.py send_bytes`. -/
inductive SendOutcome
  | timedOut
  | finished (sent : Nat)
deriving DecidableEq

/-- Chunk loop of `UartTransport.send_bytes` (src/server/APIs/transport_api.py
lines 132-178): `accepts i` is the byte count the underlying write accepts
at iteration `i` (`none` models `serial.SerialTimeoutException`, which
aborts the send with failure; a partial write only logs a warning and the
cursor advances by the accepted count).  `fuel` bounds the iterations; the
loop itself has no bound, so running out of fuel yields `none` (still
looping). -/
def sendLoop (accepts : Nat → Option Nat) (size : Nat) : Nat → Nat → Nat → Option SendOutcome
  | i, sent, fuel + 1 =>
    if sent < size then
      match accepts i with
      | none => some .timedOut
      | some w => sendLoop accepts size (i + 1) (sent + w) fuel
    else some (.finished sent)
  | _, sent, 0 => if sent < size then none else some (.finished sent)

/-- `UartTransport.send_bytes` result logic (transport_api.py lines 180-218):
after the chunk loop, the final drain loop polls `out_waiting` for at most
20 s and returns False on timeout (`drainOk` abstracts whether the buffer
emptied in time); after a successful drain `out_waiting` is 0, so success
is `sent == size`.  `none` models a chunk loop still running. -/
def sendBytes (accepts : Nat → Option Nat) (size : Nat) (drainOk : Bool) (fuel : Nat) :
    Option Bool :=
  match sendLoop accepts size 0 0 fuel with
  | none => none
  | some .timedOut => some false
  | some (.finished sent) =>
    if drainOk then some (decide (sent = size)) else some false

/-- Session-end result of the backup receiver. -/
structure BackupEnd where
  success : Bool
  buffer : List Nat
  saved : Bool
deriving DecidableEq

/-- Session end of `UARTClientACK.receive_with_ack`
(src/backups/20250925_201451/uart_client_v5.py lines 290-321): success is
`bytes_received >= transmitted_size` (computed before truncation), any
excess over `transmitted_size` is truncated away, and the buffer is written
to disk whenever it is non-empty, success or not. -/
def backupFinalize (received : List Nat) (transmittedSize : Nat) : BackupEnd :=
  let ok := decide (transmittedSize ≤ received.length)
  let buf := if transmittedSize < received.length then received.take transmittedSize else received
  { success := ok, buffer := buf, saved := !buf.isEmpty }

/-- Timing schedule under which the receiver's input buffer never holds 4
or more unread bytes when the retry-marker probe polls (a receiver keeping
pace with the line). -/
def schedNever : Nat → Bool := fun _ => false

/-- Timing schedule under which every pending byte has already arrived when
the retry-marker probe polls. -/
def schedAlways : Nat → Bool := fun _ => true

end CamUart

namespace CamUart

/-- C9 counterexample: the stream delivers one noise byte, then the 4-byte
retry-marker pattern, then a genuine start marker; `_wait_start_marker`
returns the retry indication after the 0xCC run, before any start marker
has been recognized — refuting the claim that such a run is never
interpreted as a retry signal at that point. -/
theorem c9_retry_before_marker :
    waitStartGo [] ([1] ++ RETRY4 ++ START10) = (.retry, START10) ∧
    (waitStartGo [] ([1] ++ RETRY4 ++ START10)).1 ≠ .found := by
  constructor
  · rfl
  · intro h
    simp [waitStartGo, RETRY4, START10] at h

/-- C9 (amended): during the start-marker scan a 4-byte run of 0xCC is
recognized as a retry signal as soon as it completes, even though no start
marker has been recognized and without any mid-correction gating: every
stream beginning with the retry marker is classified as a retry. -/
theorem c9_retry_recognized_prestart (s : List Nat) :
    waitStartGo [] (RETRY4 ++ s) = (.retry, s) := by
  rfl

end CamUart

namespace CamUart

/-- C1 counterexample: the 10-byte payload beginning with the 4-byte 0xCC
run, streamed by `send_bytes_with_ack` over a lossless channel, is received
with the leading run swallowed by the retry-marker probe of `_read_exact`
(here the input buffer already holds the bytes when the probe polls) and
four end-marker bytes counted as payload in its place; the buffer differs
from the payload even though the ACK line is `ACK_OK`. -/
theorem c1_cc_prefix_counterexample :
    (receiveImage 10 (initialSend [204, 204, 204, 204, 1, 2, 3, 4, 5, 6]).1 schedAlways).buffer
        = [1, 2, 3, 4, 5, 6, 187, 187, 187, 187] ∧
    (receiveImage 10 (initialSend [204, 204, 204, 204, 1, 2, 3, 4, 5, 6]).1 schedAlways).buffer
        ≠ [204, 204, 204, 204, 1, 2, 3, 4, 5, 6] ∧
    (receiveImage 10 (initialSend [204, 204, 204, 204, 1, 2, 3, 4, 5, 6]).1 schedAlways).statusLines
        = ["ACK_OK" ++ "\r\n"] := by
  refine ⟨by decide, by decide, by decide⟩

/-- C3: the claim's status line is wrong on the code in two ways, shown at
received = 2 against declared size 3 and at a session whose frame header
declares 3 while the out-of-band expected size is 5.  First, the client's
missing-report line carries a double colon, not the single colon of the
wire rule.  Second, `receive_image` compares the received count against the
`expected_size` argument, not against the size decoded from the 4-byte
header: the session below holds exactly the header-declared 3 bytes, yet
the line sent is `ACK_MISSING::3` rather than `ACK_OK`. -/
theorem c3_ack_line_double_colon :
    sendAckStatus 2 3 = "ACK_MISSING::2" ++ "\r\n" ∧
    sendAckStatus 2 3 ≠ specAckMissingLine 2 ∧
    (receiveImage 5 (START10 ++ be32enc 3 ++ [9, 9, 9]) schedNever).sizeHeader = some 3 ∧
    (receiveImage 5 (START10 ++ be32enc 3 ++ [9, 9, 9]) schedNever).buffer.length = 3 ∧
    (receiveImage 5 (START10 ++ be32enc 3 ++ [9, 9, 9]) schedNever).statusLines
        = ["ACK_MISSING::3" ++ "\r\n"] := by
  refine ⟨by decide, by decide, by decide, by decide, by decide⟩

/-- C2: the correction cycle is dead code in the current client/server pair,
shown at payload P = [1,2,3] with the last byte lost.  The receiver ends
with P[:2], sends the double-colon line `ACK_MISSING::2` and returns
failure at once; the sender's `_wait_for_ack` cannot parse that line
(`int` on the empty field raises), reports an undetermined missing count,
and `send_bytes_with_ack` aborts without writing any retransmission.  With
the spec-format single-colon line the same loop does retransmit exactly the
0xCC marker followed by the suffix P[2:] and then succeeds. -/
theorem c2_double_colon_breaks_correction :
    (receiveImage 3 (START10 ++ be32enc 3 ++ [1, 2]) schedNever).buffer = [1, 2] ∧
    (receiveImage 3 (START10 ++ be32enc 3 ++ [1, 2]) schedNever).statusLines
        = ["ACK_MISSING::2" ++ "\r\n"] ∧
    (receiveImage 3 (START10 ++ be32enc 3 ++ [1, 2]) schedNever).success = false ∧
    pyStrip (sendAckStatus 2 3).data = "ACK_MISSING::2".data ∧
    waitForAckGo 3 ["ACK_MISSING::2"] = ((false, 0), []) ∧
    ackPhaseGo [1, 2, 3] 3 3 ["ACK_MISSING::2"] 0 []
        = { ok := false, ackExchanges := 1, retransWires := [] } ∧
    ackPhaseGo [1, 2, 3] 3 3 ["ACK_MISSING:2", "ACK_OK"] 0 []
        = { ok := true, ackExchanges := 2, retransWires := [RETRY4 ++ [3]] } := by
  refine ⟨by decide, by decide, by decide, by decide, by decide, by decide, by decide⟩

/-- C4 counterexample: a session of the current receiver in which the probe
of `_read_exact` reads past the declared size (header declares 2, four
bytes are pending when it polls): the session ends with a 4-byte buffer,
`len(received_buffer) <= size_header` is violated, and the buffer is
written out untruncated. -/
theorem c4_no_truncation_current :
    (receiveImage 2 (START10 ++ be32enc 2 ++ [1, 2, 9, 9]) schedAlways).sizeHeader = some 2 ∧
    (receiveImage 2 (START10 ++ be32enc 2 ++ [1, 2, 9, 9]) schedAlways).buffer = [1, 2, 9, 9] ∧
    (receiveImage 2 (START10 ++ be32enc 2 ++ [1, 2, 9, 9]) schedAlways).saved = true ∧
    ¬ (receiveImage 2 (START10 ++ be32enc 2 ++ [1, 2, 9, 9]) schedAlways).buffer.length ≤ 2 := by
  refine ⟨by decide, by decide, by decide, by decide⟩

/-- C7 counterexample: two sessions of the current receiver with identical
byte counts (both receive exactly the declared and expected 4 bytes) but
different payload content: the non-JPEG payload makes `receive_image`
return failure while the JPEG-framed payload returns success, so content
validation does affect the success/failure outcome. -/
theorem c7_jpeg_affects_outcome :
    (receiveImage 4 (START10 ++ be32enc 4 ++ [1, 2, 3, 4]) schedNever).buffer.length = 4 ∧
    (receiveImage 4 (START10 ++ be32enc 4 ++ [1, 2, 3, 4]) schedNever).success = false ∧
    (receiveImage 4 (START10 ++ be32enc 4 ++ [255, 216, 255, 217]) schedNever).buffer.length = 4 ∧
    (receiveImage 4 (START10 ++ be32enc 4 ++ [255, 216, 255, 217]) schedNever).success = true := by
  refine ⟨by decide, by decide, by decide, by decide⟩

/-- C8 counterexample: a session of the current receiver that times out
after 2 of the declared 3 payload bytes: it returns failure holding the
non-empty partial buffer, but the file-write step is never reached — the
partial data is not persisted. -/
theorem c8_partial_not_saved :
    (receiveImage 3 (START10 ++ be32enc 3 ++ [7, 7]) schedNever).success = false ∧
    (receiveImage 3 (START10 ++ be32enc 3 ++ [7, 7]) schedNever).buffer = [7, 7] ∧
    (receiveImage 3 (START10 ++ be32enc 3 ++ [7, 7]) schedNever).saved = false := by
  refine ⟨by decide, by decide, by decide⟩

end CamUart

namespace CamUart

/-- Scanning a stream that begins with the start marker finds it after
exactly ten bytes and leaves the rest of the stream unread. -/
theorem waitStart_found (r : List Nat) : waitStartGo [] (START10 ++ r) = (.found, r) := by
  rfl

/-- The size header has four bytes. -/
theorem be32enc_length (n : Nat) : (be32enc n).length = 4 := by
  rfl

/-- Decoding the packed big-endian header recovers any size below 2^32. -/
theorem be32_be32enc (n : Nat) (h : n < 4294967296) : be32 (be32enc n) = n := by
  simp only [be32, be32enc, List.getD_cons_zero, List.getD_cons_succ]
  omega

/-- Taking the header off a frame suffix. -/
theorem take4_be32enc (n : Nat) (x : List Nat) : (be32enc n ++ x).take 4 = be32enc n := by
  rw [show (4 : Nat) = (be32enc n).length from rfl, List.take_left]

/-- Dropping the header off a frame suffix. -/
theorem drop4_be32enc (n : Nat) (x : List Nat) : (be32enc n ++ x).drop 4 = x := by
  rw [show (4 : Nat) = (be32enc n).length from rfl, List.drop_left]

/-- Under a schedule where the retry-marker probe never fires, `_read_exact`
reads exactly the requested bytes off the front of the stream: with the
request equal to the length of the prefix `P`, it succeeds with buffer
`acc ++ P` and leaves the tail unread. -/
theorem readExactGo_never (fuel : Nat) :
    ∀ (P tail acc : List Nat) (i : Nat), P.length < fuel →
      readExactGo schedNever fuel i (P.length : Int) (P ++ tail) acc
        = (true, acc ++ P, tail) := by
  induction fuel with
  | zero => intro P tail acc i h; omega
  | succ f ih =>
    intro P tail acc i h
    by_cases h0 : P = []
    · subst h0
      simp [readExactGo]
    · have hlen : 0 < P.length := List.length_pos.mpr h0
      rw [readExactGo]
      rw [if_neg (by omega)]
      rw [if_neg (by simp [schedNever])]
      simp only []
      have htR : (min (4096 : Int) ((P.length : Nat) : Int)).toNat = min 4096 P.length := by
        omega
      have hkval : min (min (4096 : Int) ((P.length : Nat) : Int)).toNat (P ++ tail).length
          = min 4096 P.length := by
        rw [htR]
        simp only [List.length_append]
        omega
      rw [hkval]
      have hk1 : 1 ≤ min 4096 P.length := by omega
      have hkP : min 4096 P.length ≤ P.length := by omega
      rw [if_neg (by omega)]
      rw [List.take_append_of_le_length hkP, List.drop_append_of_le_length hkP]
      have hrem : (P.length : Int) - ((min 4096 P.length : Nat) : Int)
          = ((P.drop (min 4096 P.length)).length : Int) := by
        simp only [List.length_drop]
        omega
      rw [hrem]
      rw [ih (P.drop (min 4096 P.length)) tail (acc ++ P.take (min 4096 P.length)) (i + 1)
        (by simp only [List.length_drop]; omega)]
      simp [List.append_assoc, List.take_append_drop]

/-- With a payload of at least ten bytes the progress-log divisor is
positive, so the chunk loop completes and writes exactly the pending
bytes, in order. -/
theorem sendChunksGo_ok (size : Nat) (h10 : 10 ≤ size) (fuel : Nat) :
    ∀ pending : List Nat, pending.length < fuel →
      sendChunksGo size fuel pending = .ok pending := by
  induction fuel with
  | zero => intro pending h; omega
  | succ f ih =>
    intro pending h
    match pending with
    | [] => rfl
    | b :: t =>
      rw [sendChunksGo]
      rw [if_neg (by omega)]
      rw [ih ((b :: t).drop 512) (by simp [List.length_drop] at h ⊢; omega)]
      simp [List.take_append_drop]

/-- With a non-empty payload of fewer than ten bytes the progress-log
divisor `size // 10` is zero, so the chunk loop raises ZeroDivisionError
right after writing the first (and only) chunk. -/
theorem sendChunksGo_err (size : Nat) (hpos : 0 < size) (hlt : size < 10) (fuel : Nat)
    (b : Nat) (t : List Nat) :
    sendChunksGo size (fuel + 1) (b :: t) = .error ((b :: t).take 512) := by
  rw [sendChunksGo]
  rw [if_pos (by omega)]

/-- Every wire written by the initial-send phase of `send_bytes_with_ack`
is the start marker, the size header, the full payload, then some tail
(the end markers and trailer text, or nothing when the progress log raised
after the single chunk of a short payload). -/
theorem initialSend_shape (data : List Nat) :
    ∃ tail, (initialSend data).1 = START10 ++ (be32enc data.length ++ (data ++ tail)) := by
  by_cases h0 : data = []
  · subst h0
    exact ⟨END10 ++ ENDTEXT, rfl⟩
  · match data with
    | b :: t =>
      by_cases h10 : 10 ≤ (b :: t).length
      · refine ⟨END10 ++ ENDTEXT, ?_⟩
        unfold initialSend
        rw [sendChunksGo_ok (b :: t).length h10 ((b :: t).length + 1) (b :: t) (by omega)]
        simp [List.append_assoc]
      · refine ⟨[], ?_⟩
        unfold initialSend
        have hl : (b :: t).length = t.length + 1 := rfl
        rw [show (b :: t).length + 1 = t.length + 1 + 1 from by omega]
        rw [sendChunksGo_err (b :: t).length (by simp) (by omega) (t.length + 1) b t]
        have ht : (b :: t).take 512 = b :: t := List.take_of_length_le (by omega)
        rw [ht]
        simp [List.append_assoc]

/-- C1 (amended): the round trip holds provided the retry-marker probe of
`_read_exact` never fires (fewer than 4 bytes pending whenever it polls):
for every payload `P` with declared size `len(P)` below 2^32, streaming `P`
with `send_bytes_with_ack` to `receive_image` over a lossless channel
yields a final receiver buffer equal to `P` byte-for-byte, and the single
status line the receiver then emits is `ACK_OK`.  (Without that timing
restriction the probe can swallow a 0xCC run of the payload, see the
counterexample.) -/
theorem c1_roundtrip_probe_off (P : List Nat) (hS : P.length < 4294967296) :
    (receiveImage P.length (initialSend P).1 schedNever).buffer = P ∧
    (receiveImage P.length (initialSend P).1 schedNever).statusLines
      = ["ACK_OK" ++ "\r\n"] := by
  obtain ⟨tail, hw⟩ := initialSend_shape P
  rw [hw]
  unfold receiveImage
  rw [waitStart_found]
  have h4 : 4 ≤ (be32enc P.length ++ (P ++ tail)).length := by
    simp [be32enc]
  simp only []
  rw [if_pos h4]
  rw [take4_be32enc, drop4_be32enc, be32_be32enc P.length hS]
  unfold readExact
  rw [readExactGo_never ((P ++ tail).length + 1) P tail [] 0 (by simp [List.length_append]; omega)]
  simp [sendAckStatus]

/-- C1 witness: the two-byte payload [255, 216] at concrete inputs. -/
theorem c1_roundtrip_probe_off_w :
    (receiveImage 2 (initialSend [255, 216]).1 schedNever).buffer = [255, 216] ∧
    (receiveImage 2 (initialSend [255, 216]).1 schedNever).statusLines
      = ["ACK_OK" ++ "\r\n"] :=
  c1_roundtrip_probe_off [255, 216] (by decide)

/-- C4 (amended): the session-end truncation exists only in the backup
receiver.  There, `receive_with_ack` enforces the invariant: whenever the
accumulated buffer holds the `S`-byte payload `P` followed by `k > 0`
leaked extra bytes, the buffer handed onward is truncated to exactly the
first `S` bytes, equal to `P`.  The current `receive_image` performs no
truncation (see the counterexample). -/
theorem c4_backup_truncates (P extra : List Nat) (S : Nat)
    (hP : P.length = S) (hx : extra ≠ []) :
    (backupFinalize (P ++ extra) S).buffer = P ∧
    (backupFinalize (P ++ extra) S).buffer.length = S := by
  have hxl : 0 < extra.length := List.length_pos.mpr hx
  have hlt : S < (P ++ extra).length := by
    simp [List.length_append]
    omega
  constructor
  · simp only [backupFinalize, if_pos hlt]
    rw [List.take_append_of_le_length (by omega), ← hP, List.take_length]
  · simp only [backupFinalize, if_pos hlt]
    simp [List.length_take]
    omega

/-- C4 witness: payload [5] with one leaked byte at concrete inputs. -/
theorem c4_backup_truncates_w :
    (backupFinalize ([5] ++ [6]) 1).buffer = [5] ∧
    (backupFinalize ([5] ++ [6]) 1).buffer.length = 1 :=
  c4_backup_truncates [5] [6] 1 (by decide) (by decide)

/-- C8 (amended): only the backup receiver preserves partial data.  On its
session end a non-empty buffer still short of the declared size (the
retry-exhaustion outcome) is written to disk together with the failure
flag, untouched.  The current `receive_image` returns from its failure
paths before the file write (see the counterexample). -/
theorem c8_backup_saves_partial (buf : List Nat) (S : Nat)
    (hne : buf ≠ []) (hshort : buf.length < S) :
    (backupFinalize buf S).saved = true ∧
    (backupFinalize buf S).success = false ∧
    (backupFinalize buf S).buffer = buf := by
  have hnb : ¬ S < buf.length := by omega
  refine ⟨?_, ?_, ?_⟩
  · simp [backupFinalize, if_neg hnb, hne]
  · simp [backupFinalize]
    omega
  · simp [backupFinalize, if_neg hnb]

/-- C8 witness: the one-byte partial buffer [7] against declared size 3. -/
theorem c8_backup_saves_partial_w :
    (backupFinalize [7] 3).saved = true ∧
    (backupFinalize [7] 3).success = false ∧
    (backupFinalize [7] 3).buffer = [7] :=
  c8_backup_saves_partial [7] 3 (by decide) (by decide)

/-- C7 (amended): in `receive_image` the JPEG header/trailer validation is
logged and also conjoined into the returned success flag: on every session
that reaches the file write, success equals byte-count match AND JPEG
validity, while the status line depends only on the byte count. -/
theorem c7_success_includes_jpeg (expected : Nat) (stream : List Nat) (sched : Nat → Bool)
    (h : (receiveImage expected stream sched).saved = true) :
    (receiveImage expected stream sched).success
      = (decide ((receiveImage expected stream sched).buffer.length = expected)
          && jpegValid (receiveImage expected stream sched).buffer) ∧
    (receiveImage expected stream sched).statusLines
      = [sendAckStatus (receiveImage expected stream sched).buffer.length expected] := by
  rcases hv : receiveImage expected stream sched with ⟨succ, buf, lines, sv, sh⟩
  rw [hv] at h
  simp only [] at h
  subst h
  unfold receiveImage at hv
  split at hv
  · simp only [RecvOut.mk.injEq] at hv
    exact absurd hv.2.2.2.1 (by simp)
  · split at hv
    · simp only [] at hv
      split at hv
      · simp only [RecvOut.mk.injEq] at hv
        exact absurd hv.2.2.2.1 (by simp)
      · simp only [RecvOut.mk.injEq] at hv
        obtain ⟨h1, h2, h3, _, h5⟩ := hv
        subst h1
        subst h2
        subst h3
        exact ⟨rfl, rfl⟩
    · simp only [RecvOut.mk.injEq] at hv
      exact absurd hv.2.2.2.1 (by simp)

/-- C7 witness: the theorem applied to a completed 4-byte JPEG session. -/
theorem c7_success_includes_jpeg_w :
    (receiveImage 4 (START10 ++ be32enc 4 ++ [255, 216, 255, 217]) schedNever).success
      = (decide ((receiveImage 4 (START10 ++ be32enc 4 ++ [255, 216, 255, 217])
            schedNever).buffer.length = 4)
          && jpegValid (receiveImage 4 (START10 ++ be32enc 4 ++ [255, 216, 255, 217])
            schedNever).buffer) ∧
    (receiveImage 4 (START10 ++ be32enc 4 ++ [255, 216, 255, 217]) schedNever).statusLines
      = [sendAckStatus (receiveImage 4 (START10 ++ be32enc 4 ++ [255, 216, 255, 217])
            schedNever).buffer.length 4] :=
  c7_success_includes_jpeg 4 (START10 ++ be32enc 4 ++ [255, 216, 255, 217]) schedNever (by decide)

/-- C5: `transport_api.py send_bytes` returns True exactly when the chunk
loop finished with every payload byte accepted by the channel AND the
outbound buffer fully drained within the bounded 20-second drain timeout;
in particular a drain that does not complete makes the call return False
rather than merely log.  (Quantified over every write-acceptance behavior
and drain outcome.) -/
theorem c5_send_true_iff_drained (accepts : Nat → Option Nat) (size : Nat)
    (drainOk : Bool) (fuel : Nat) :
    sendBytes accepts size drainOk fuel = some true ↔
      (drainOk = true ∧ sendLoop accepts size 0 0 fuel = some (.finished size)) := by
  unfold sendBytes
  rcases h : sendLoop accepts size 0 0 fuel with _ | o
  · simp
  · cases o with
    | timedOut => simp
    | finished sent =>
      cases drainOk with
      | false => simp
      | true => simp

/-- Induction core for C6: when every line the sender reads is the same
recognized `ACK_MISSING` report with a positive missing count not
exceeding the payload, each allowed iteration performs exactly one ACK
exchange and one suffix retransmission, and the loop ends in failure after
the last allowed exchange. -/
theorem ackPhaseGo_static (data : List Nat) (staticL : String) (m : Int)
    (hm0 : 0 < m) (hmL : m ≤ (data.length : Int))
    (hparse : ∀ rest, waitForAckGo (data.length : Int) (staticL :: rest) = ((false, m), rest)) :
    ∀ (left exch : Nat) (wires : List (List Nat)),
      (ackPhaseGo data data.length left (List.replicate (left + 1) staticL) exch wires).ok
          = false ∧
      (ackPhaseGo data data.length left (List.replicate (left + 1) staticL) exch wires).ackExchanges
          = exch + left + 1 := by
  intro left
  induction left with
  | zero =>
    intro exch wires
    rw [ackPhaseGo]
    rw [List.replicate_succ, List.replicate_zero, hparse]
    simp only []
    rw [if_neg (by omega)]
    exact ⟨rfl, rfl⟩
  | succ l ih =>
    intro exch wires
    rw [ackPhaseGo]
    rw [List.replicate_succ, hparse]
    simp only []
    rw [if_neg (by omega)]
    have hrecv : ¬ data.length ≤ ((data.length : Int) - m).toNat := by omega
    simp only [sendMissingWire, if_neg hrecv]
    exact ⟨(ih _ _).1, by rw [(ih _ _).2]; omega⟩

/-- C6: for every configured `max_retries`, if every ACK exchange reports
the same recognized static `ACK_MISSING` line with a positive missing
count, `send_bytes_with_ack` (payload of at least ten bytes, declared size
equal to the payload length) performs exactly `max_retries + 1` ACK
exchanges and then returns failure — the correction loop never runs
indefinitely. -/
theorem c6_retry_exhaustion (data : List Nat) (R : Nat) (staticL : String) (m : Int)
    (h10 : 10 ≤ data.length) (hm0 : 0 < m) (hmL : m ≤ (data.length : Int))
    (hparse : ∀ rest, waitForAckGo (data.length : Int) (staticL :: rest) = ((false, m), rest)) :
    (sendBytesWithAck data data.length R (List.replicate (R + 1) staticL)).1.ok = false ∧
    (sendBytesWithAck data data.length R (List.replicate (R + 1) staticL)).1.ackExchanges
        = R + 1 := by
  unfold sendBytesWithAck
  rw [sendChunksGo_ok data.length h10 (data.length + 1) data (by omega)]
  have hr := ackPhaseGo_static data staticL m hm0 hmL hparse R 0 []
  exact ⟨hr.1, by rw [hr.2]; omega⟩

/-- C6 witness: a 12-byte payload, max_retries = 2, static line
ACK_MISSING:5 (so 7 bytes report as missing at every exchange). -/
theorem c6_retry_exhaustion_w :
    (sendBytesWithAck [0, 1, 2, 3, 4, 5, 6, 7, 8, 9, 10, 11] 12 2
        (List.replicate 3 "ACK_MISSING:5")).1.ok = false ∧
    (sendBytesWithAck [0, 1, 2, 3, 4, 5, 6, 7, 8, 9, 10, 11] 12 2
        (List.replicate 3 "ACK_MISSING:5")).1.ackExchanges = 3 :=
  c6_retry_exhaustion [0, 1, 2, 3, 4, 5, 6, 7, 8, 9, 10, 11] 2 "ACK_MISSING:5" 7
    (by decide) (by decide) (by decide) (fun rest => rfl)

/-- C10: for every payload of 1 to 9 bytes, the divisor `size // 10` of the
progress-log expression in `send_bytes_with_ack` is zero on the first chunk
iteration, the resulting ZeroDivisionError is caught by the outer handler,
and the call returns False with no ACK exchange — such payloads can never
be sent successfully, whatever the channel or the peer answers. -/
theorem c10_small_payload_zero_division (data : List Nat) (expected R : Nat)
    (lines : List String) (h1 : 0 < data.length) (h2 : data.length < 10) :
    (sendBytesWithAck data expected R lines).1.ok = false ∧
    (sendBytesWithAck data expected R lines).1.ackExchanges = 0 := by
  unfold sendBytesWithAck
  match data, h1 with
  | b :: t, _ =>
    rw [show (b :: t).length + 1 = t.length + 1 + 1 from by simp]
    rw [sendChunksGo_err (b :: t).length (by simp) (by omega) (t.length + 1) b t]
    exact ⟨rfl, rfl⟩

/-- C10 witness: the three-byte payload [1, 2, 3]. -/
theorem c10_small_payload_zero_division_w :
    (sendBytesWithAck [1, 2, 3] 3 3 []).1.ok = false ∧
    (sendBytesWithAck [1, 2, 3] 3 3 []).1.ackExchanges = 0 :=
  c10_small_payload_zero_division [1, 2, 3] 3 3 [] (by decide) (by decide)

end CamUart
